import Mathlib

/-!
Shallow embedding of the ofxPdGui Pure Data patch parser
(src/PatchParser.cpp, src/Subpatch.cpp, src/PdGuiObject.cpp and the
widget constructors in Slider.cpp / Toggle.cpp / Bang.cpp / NumberBox.cpp /
Canvas.cpp).

Modelling conventions:
- C++ `float` is modelled by `Rat`; every arithmetic operation the parser
  performs (parsing decimal literals, clamping, addition, comparison with
  the 0.001 change-detection threshold) is exact on the inputs considered.
- `std::string` is modelled by Lean `String`; where the C++ works on raw
  bytes the strings involved are ASCII, so byte indices and character
  indices agree and we work on `String.data`.
- An out-of-bounds `std::vector::operator[]` access (undefined behaviour in
  C++) is modelled by an `Option`-returning lookup (`tokenAt`): the `none`
  branch marks the access that C++ does not guard.
- Exceptions (`std::stoi`) are modelled by `Option`: `none` at the point the
  C++ would throw, and the enclosing `try/catch` turns `none` into the
  fallback value, exactly as the C++ catch block does.
- File IO (`ofBufferFromFile`) is an external collaborator: `parseFile`
  receives the buffer contents; an unopenable file yields an empty buffer.
-/

attribute [local semireducible] Rat.add Rat.sub Rat.mul Rat.inv

/-- GuiType from PdGuiObject.h (SUBPATCH is used by Subpatch.cpp). -/
inductive GuiType where
  | HORIZONTAL_SLIDER
  | VERTICAL_SLIDER
  | TOGGLE
  | BANG
  | NUMBER_BOX
  | SUBPATCH
  | UNKNOWN
deriving DecidableEq, Repr

/-- ofVec2f, the 2D float vector used for positions and sizes. -/
structure ofVec2f where
  x : Rat
  y : Rat
deriving DecidableEq, Repr

/-- ofColor restricted to the RGB triple the parser manipulates. -/
structure ofColor where
  r : Int
  g : Int
  b : Int
deriving DecidableEq, Repr

/-- Flattened record of the PdGuiObject class hierarchy: the base fields
plus the derived-class fields the parser sets (label and colors for
PdCanvas, precision for PdNumberBox, path and offset for PdSubpatch).
Rendering-only state (visible, enabled, knobSize, callbacks...) is outside
the parsing model. -/
structure PdGuiObject where
  type : GuiType
  position : ofVec2f
  size : ofVec2f
  sendSymbol : String
  receiveSymbol : String
  currentValue : Rat
  minValue : Rat
  maxValue : Rat
  displayPrecision : Int := 2
  canvasLabel : String := ""
  backgroundColor : ofColor := ⟨224, 224, 224⟩
  textColor : ofColor := ⟨0, 0, 0⟩
  subpatchPath : String := ""
  offsetX : Rat := 0
  offsetY : Rat := 0
deriving DecidableEq, Repr

/-- ofClamp from openFrameworks: value < min ? min : value > max ? max : value. -/
def ofClamp (value min max : Rat) : Rat :=
  if value < min then min else if value > max then max else value

/-- abs on floats as used by PdGuiObject::setValue. -/
def ofAbs (v : Rat) : Rat := if v < 0 then -v else v

/-- Numeric value of a decimal digit character. -/
def charVal (c : Char) : Nat := c.toNat - 48

/-- Value of a sequence of decimal digit characters. -/
def natOfDigits (ds : List Char) : Nat := ds.foldl (fun a c => a * 10 + charVal c) 0

/-- Unsigned decimal magnitude read from the front of a character list:
integer digits, optionally followed by a dot and fraction digits.  When no
digit is present the result is 0, matching the failure value of
istringstream extraction. -/
def ofToFloatMag (cs : List Char) : Rat :=
  let intDs := cs.takeWhile Char.isDigit
  let rest := cs.dropWhile Char.isDigit
  let fracDs := match rest with
    | '.' :: t => t.takeWhile Char.isDigit
    | _ => []
  (natOfDigits intDs : Rat) + (natOfDigits fracDs : Rat) / ((10 : Rat) ^ fracDs.length)

/-- ofToFloat from openFrameworks (istringstream >> float; 0 on failure):
skip whitespace, optional sign, longest decimal prefix.  (Exponent forms
never occur in the inputs considered and are not modelled.) -/
def ofToFloat (s : String) : Rat :=
  let cs := s.data.dropWhile (fun c => c = ' ' || c = '\t' || c = '\n' || c = '\r')
  match cs with
  | '-' :: t => -(ofToFloatMag t)
  | '+' :: t => ofToFloatMag t
  | _ => ofToFloatMag cs

/-- ofToString on a float as used to synthesize floatatom channel names.
Exact decimal formatting is never inspected by any property proved here;
integral values print as integers, which is the case for all on-grid
positions. -/
def ofToString (v : Rat) : String :=
  if v.den = 1 then toString v.num else toString v

/-- Pieces of a character list between occurrences of a delimiter (the
getline loop of splitString, including its empty pieces). -/
def splitPieces (delimiter : Char) : List Char → List Char → List String
  | [], acc => [String.mk acc.reverse]
  | c :: rest, acc =>
    if c = delimiter then String.mk acc.reverse :: splitPieces delimiter rest []
    else splitPieces delimiter rest (c :: acc)

/-- PdPatchParser::splitString: split on the delimiter, dropping empty
tokens (the C++ loop pushes a token only when !token.empty()). -/
def splitString (str : String) (delimiter : Char) : List String :=
  (splitPieces delimiter str.data []).filter (fun token => !token.isEmpty)

/-- Test whether the first list is a leading segment of the second,
modelling std::string::find(pattern) == 0. -/
def startsWithChars : List Char → List Char → Bool
  | [], _ => true
  | _ :: _, [] => false
  | p :: ps, c :: cs => p = c && startsWithChars ps cs

/-- ofBuffer::getLines: the buffer contents split into lines, with a
trailing carriage return stripped from each line. -/
def getLines (s : String) : List String :=
  (splitPieces ('\n') s.data []).map
    (fun l =>
      if l.data.getLast? = some '\r' then String.mk l.data.dropLast else l)

/-- Token lookup modelling std::vector::operator[] on the token list: the
C++ access is undefined behaviour out of range, so the embedding returns
none exactly when the index is out of range. -/
def tokenAt (tokens : List String) (i : Nat) : Option String := tokens.get? i

/-- PdGuiObject::setValue: clamp into [minValue,maxValue] and store only
when the change exceeds the 0.001 change-detection threshold. -/
def setValue (w : PdGuiObject) (value : Rat) : PdGuiObject :=
  let clampedValue := ofClamp value w.minValue w.maxValue
  if ofAbs (w.currentValue - clampedValue) > 1 / 1000 then
    { w with currentValue := clampedValue }
  else w

/-- PdGuiObject::setValueRange: store the range then re-clamp the current
value through setValue. -/
def setValueRange (w : PdGuiObject) (min max : Rat) : PdGuiObject :=
  let w := { w with minValue := min, maxValue := max }
  setValue w w.currentValue

/-- PdGuiObject base constructor: currentValue 0, default range [0,127]. -/
def mkPdGuiObject (type : GuiType) (position size : ofVec2f)
    (sendSymbol receiveSymbol : String) : PdGuiObject :=
  { type := type, position := position, size := size,
    sendSymbol := sendSymbol, receiveSymbol := receiveSymbol,
    currentValue := 0, minValue := 0, maxValue := 127 }

/-- PdSlider constructor: base construction then setValueRange(min,max)
and setValue(initialValue). -/
def mkPdSlider (type : GuiType) (position size : ofVec2f)
    (sendSymbol receiveSymbol : String) (min max initialValue : Rat) : PdGuiObject :=
  setValue (setValueRange (mkPdGuiObject type position size sendSymbol receiveSymbol) min max)
    initialValue

/-- PdToggle constructor: fixed range [0,1], value 0. -/
def mkPdToggle (position size : ofVec2f) (sendSymbol receiveSymbol : String) : PdGuiObject :=
  { mkPdGuiObject GuiType.TOGGLE position size sendSymbol receiveSymbol with
      minValue := 0, maxValue := 1, currentValue := 0 }

/-- PdBang constructor: fixed range [0,1], value 0. -/
def mkPdBang (position size : ofVec2f) (sendSymbol receiveSymbol : String) : PdGuiObject :=
  { mkPdGuiObject GuiType.BANG position size sendSymbol receiveSymbol with
      minValue := 0, maxValue := 1, currentValue := 0 }

/-- PdNumberBox constructor: stores the display precision, then
setValueRange(min,max) and setValue(initialValue). -/
def mkPdNumberBox (position size : ofVec2f) (sendSymbol receiveSymbol : String)
    (min max initialValue : Rat) (precision : Int) : PdGuiObject :=
  setValue
    (setValueRange
      { mkPdGuiObject GuiType.NUMBER_BOX position size sendSymbol receiveSymbol with
          displayPrecision := precision } min max)
    initialValue

/-- PdCanvas constructor: decorative widget with fixed "empty" channels. -/
def mkPdCanvas (position size : ofVec2f) (label : String)
    (backgroundColor textColor : ofColor) : PdGuiObject :=
  { mkPdGuiObject GuiType.UNKNOWN position size ("empty") ("empty") with
      canvasLabel := label, backgroundColor := backgroundColor, textColor := textColor }

/-- PdSubpatch constructor: records the child path and the flattening
offset (the recursive child-file load is an external collaborator). -/
def mkPdSubpatch (position size : ofVec2f)
    (sendSymbol receiveSymbol subpatchPath : String) (offsetX offsetY : Rat) : PdGuiObject :=
  { mkPdGuiObject GuiType.SUBPATCH position size sendSymbol receiveSymbol with
      subpatchPath := subpatchPath, offsetX := offsetX, offsetY := offsetY }

/-- PdSubpatch::addChild: translate the child position by the subpatch
offset.  (The callback wiring the C++ also performs is outside the model.) -/
def addChild (offsetX offsetY : Rat) (child : PdGuiObject) : PdGuiObject :=
  { child with position := ⟨child.position.x + offsetX, child.position.y + offsetY⟩ }

/-- Hexadecimal digit test used by strtol in base 16. -/
def isHexDigitChar (c : Char) : Bool :=
  c.isDigit || ('a' ≤ c && c ≤ 'f') || ('A' ≤ c && c ≤ 'F')

/-- Numeric value of a hexadecimal digit character. -/
def hexDigitVal (c : Char) : Nat :=
  if c.isDigit then c.toNat - 48
  else if 'a' ≤ c && c ≤ 'f' then c.toNat - 87
  else c.toNat - 55

/-- Value of a sequence of hexadecimal digit characters. -/
def hexNatOfDigits (ds : List Char) : Nat := ds.foldl (fun a c => a * 16 + hexDigitVal c) 0

/-- Unsigned part of strtol base 16: optional 0x/0X prefix, then the
longest run of hexadecimal digits; none when no digit can be consumed at
all ("0x" with no digit after it parses the leading 0). -/
def stoi16mag (cs : List Char) : Option Nat :=
  match cs with
  | '0' :: 'x' :: rest => some (hexNatOfDigits (rest.takeWhile isHexDigitChar))
  | '0' :: 'X' :: rest => some (hexNatOfDigits (rest.takeWhile isHexDigitChar))
  | _ =>
    let ds := cs.takeWhile isHexDigitChar
    if ds.isEmpty then none else some (hexNatOfDigits ds)

/-- std::stoi with base 16 (strtol semantics): skip whitespace, optional
sign, then the magnitude; none models the invalid_argument throw. -/
def stoi16 (cs : List Char) : Option Int :=
  let cs := cs.dropWhile (fun c => c = ' ' || c = '\t' || c = '\n' || c = '\r')
  match cs with
  | '-' :: rest => (stoi16mag rest).map (fun n => -(n : Int))
  | '+' :: rest => (stoi16mag rest).map (fun n => (n : Int))
  | _ => (stoi16mag cs).map (fun n => (n : Int))

/-- PdPatchParser::parseHexColor: '#'-prefixed 7-character strings are cut
into three 2-character pairs converted with stoi base 16; every failure
path (short string, missing '#', wrong tail length, stoi throw) returns
the gray fallback (128,128,128). -/
def parseHexColor (hexStr : String) : ofColor :=
  let cs := hexStr.data
  if cs.length < 7 ∨ cs.headD (' ') ≠ '#' then ⟨128, 128, 128⟩
  else
    let hex := cs.drop 1
    if hex.length ≠ 6 then ⟨128, 128, 128⟩
    else
      match stoi16 (hex.take 2), stoi16 ((hex.drop 2).take 2), stoi16 ((hex.drop 4).take 2) with
      | some r, some g, some b => ⟨r, g, b⟩
      | _, _, _ => ⟨128, 128, 128⟩

/-- PdPatchParser::parseHorizontalSlider (hsl). -/
def parseHorizontalSlider (tokens : List String) (pos : ofVec2f) : Option PdGuiObject :=
  if tokens.length < 12 then none
  else
    match tokenAt tokens 10, tokenAt tokens 11 with
    | some sendSym, some receiveSym =>
      if sendSym = "empty" ∧ receiveSym = "empty" then none
      else
        match tokenAt tokens 5, tokenAt tokens 6, tokenAt tokens 7, tokenAt tokens 8 with
        | some t5, some t6, some t7, some t8 =>
          let size : ofVec2f := ⟨ofToFloat t5, ofToFloat t6⟩
          let minVal := ofToFloat t7
          let maxVal := ofToFloat t8
          let initialValue :=
            if 20 < tokens.length then
              ofClamp (ofToFloat (tokens.getD (tokens.length - 1) "")) minVal maxVal
            else minVal
          some (mkPdSlider GuiType.HORIZONTAL_SLIDER pos size sendSym receiveSym
                  minVal maxVal initialValue)
        | _, _, _, _ => none
    | _, _ => none

/-- PdPatchParser::parseVerticalSlider (vsl): same token layout as the
horizontal slider, with the VERTICAL_SLIDER tag. -/
def parseVerticalSlider (tokens : List String) (pos : ofVec2f) : Option PdGuiObject :=
  if tokens.length < 12 then none
  else
    match tokenAt tokens 10, tokenAt tokens 11 with
    | some sendSym, some receiveSym =>
      if sendSym = "empty" ∧ receiveSym = "empty" then none
      else
        match tokenAt tokens 5, tokenAt tokens 6, tokenAt tokens 7, tokenAt tokens 8 with
        | some t5, some t6, some t7, some t8 =>
          let size : ofVec2f := ⟨ofToFloat t5, ofToFloat t6⟩
          let minVal := ofToFloat t7
          let maxVal := ofToFloat t8
          let initialValue :=
            if 20 < tokens.length then
              ofClamp (ofToFloat (tokens.getD (tokens.length - 1) "")) minVal maxVal
            else minVal
          some (mkPdSlider GuiType.VERTICAL_SLIDER pos size sendSym receiveSym
                  minVal maxVal initialValue)
        | _, _, _, _ => none
    | _, _ => none

/-- PdPatchParser::parseToggle (tgl). -/
def parseToggle (tokens : List String) (pos : ofVec2f) : Option PdGuiObject :=
  if tokens.length < 10 then none
  else
    match tokenAt tokens 8, tokenAt tokens 9 with
    | some sendSym, some receiveSym =>
      if sendSym = "empty" ∧ receiveSym = "empty" then none
      else
        match tokenAt tokens 5 with
        | some t5 => some (mkPdToggle pos ⟨ofToFloat t5, ofToFloat t5⟩ sendSym receiveSym)
        | none => none
    | _, _ => none

/-- PdPatchParser::parseBang (bng). -/
def parseBang (tokens : List String) (pos : ofVec2f) : Option PdGuiObject :=
  if tokens.length < 9 then none
  else
    match tokenAt tokens 7, tokenAt tokens 8 with
    | some sendSym, some receiveSym =>
      if sendSym = "empty" ∧ receiveSym = "empty" then none
      else
        match tokenAt tokens 5 with
        | some t5 => some (mkPdBang pos ⟨ofToFloat t5, ofToFloat t5⟩ sendSym receiveSym)
        | none => none
    | _, _ => none

/-- Reading the last character of a string: std::string::back() is
undefined on an empty string, so the embedding returns none there. -/
def strBack (s : String) : Option Char := s.data.getLast?

/-- Initial-value computation of PdPatchParser::parseNumberBox: with more
than 11 tokens, take the last token, strip a trailing semicolon found via
back(), parse and clamp; otherwise 0. -/
def numberInitialValue (tokens : List String) (minVal maxVal : Rat) : Option Rat :=
  if 11 < tokens.length then
    let lastToken := tokens.getD (tokens.length - 1) ""
    match strBack lastToken with
    | none => none
    | some c =>
      let lastToken := if c = ';' then String.mk lastToken.data.dropLast else lastToken
      some (ofClamp (ofToFloat lastToken) minVal maxVal)
  else some 0

/-- PdPatchParser::parseNumberBox (floatatom). -/
def parseNumberBox (tokens : List String) (pos : ofVec2f) : Option PdGuiObject :=
  if tokens.length < 7 then none
  else
    match tokenAt tokens 4, tokenAt tokens 5, tokenAt tokens 6 with
    | some t4, some t5, some t6 =>
      let width := ofToFloat t4 * 8
      let height : Rat := 20
      let size : ofVec2f := ⟨width, height⟩
      let minVal0 := ofToFloat t5
      let maxVal0 := ofToFloat t6
      let minVal := if minVal0 = 0 ∧ maxVal0 = 0 then -1000000 else minVal0
      let maxVal := if minVal0 = 0 ∧ maxVal0 = 0 then 1000000 else maxVal0
      let sendSym :=
        match tokens.get? 9 with
        | some t9 => if t9 ≠ "-" then t9 else ""
        | none => ""
      let receiveSym :=
        match tokens.get? 10 with
        | some t10 => if t10 ≠ "-" then t10 else ""
        | none => ""
      let sendSym2 :=
        if sendSym = "" ∧ receiveSym = "" then
          "floatatom-" ++ ofToString pos.x ++ "-" ++ ofToString pos.y
        else sendSym
      let receiveSym2 :=
        if sendSym = "" ∧ receiveSym = "" then sendSym2 else receiveSym
      match numberInitialValue tokens minVal maxVal with
      | none => none
      | some initialValue =>
        let precision : Int := if initialValue.den = 1 then 0 else 2
        some (mkPdNumberBox pos size sendSym2 receiveSym2 minVal maxVal initialValue precision)
    | _, _, _ => none

/-- PdPatchParser::parseCanvas (cnv): width and height from tokens[6] and
tokens[7] behind a guard that only requires 7 tokens; optional label at
tokens[10]; optional hex colors at tokens[15] and tokens[16]. -/
def parseCanvas (tokens : List String) (pos : ofVec2f) : Option PdGuiObject :=
  if tokens.length < 7 then none
  else
    match tokenAt tokens 6, tokenAt tokens 7 with
    | some t6, some t7 =>
      let size : ofVec2f := ⟨ofToFloat t6, ofToFloat t7⟩
      let label :=
        match tokens.get? 10 with
        | some t10 => if t10 ≠ "empty" then t10 else ""
        | none => ""
      let backgroundColor :=
        match tokens.get? 15 with
        | some t15 =>
          if t15.length > 1 ∧ t15.data.headD (' ') = '#' then parseHexColor t15
          else ⟨224, 224, 224⟩
        | none => ⟨224, 224, 224⟩
      let textColor :=
        match tokens.get? 16 with
        | some t16 =>
          if t16.length > 1 ∧ t16.data.headD (' ') = '#' then parseHexColor t16
          else ⟨0, 0, 0⟩
        | none => ⟨0, 0, 0⟩
      some (mkPdCanvas pos size label backgroundColor textColor)
    | _, _ => none

/-- PdPatchParser::parseSubpatch: the child name follows a literal "pd"
token at index 3 or, failing that, index 4. -/
def parseSubpatch (tokens : List String) (pos : ofVec2f) : Option PdGuiObject :=
  if tokens.length < 5 then none
  else
    let nameOpt :=
      if tokens.getD 3 "" = "pd" ∧ 4 < tokens.length then some (tokens.getD 4 "")
      else if tokens.getD 4 "" = "pd" ∧ 5 < tokens.length then some (tokens.getD 5 "")
      else none
    match nameOpt with
    | none => none
    | some subpatchName =>
      let subpatchPath := subpatchName ++ ".pd"
      let sendSymbol := subpatchName ++ "_send"
      let receiveSymbol := subpatchName ++ "_receive"
      some (mkPdSubpatch pos ⟨100, 100⟩ sendSymbol receiveSymbol subpatchPath pos.x pos.y)

/-- PdPatchParser::parseLine: tokenize, then dispatch on the raw-line
prefixes "#X obj" / "#X floatatom" / "#X restore" (std::string::find at
position 0) and, for obj lines, on the type tag tokens[4]. -/
def parseLine (line : String) : Option PdGuiObject :=
  let tokens := splitString line (' ')
  if tokens.length < 3 then none
  else if startsWithChars ("#X obj").data line.data then
    if tokens.length < 5 then none
    else
      let x := ofToFloat (tokens.getD 2 "")
      let y := ofToFloat (tokens.getD 3 "")
      let type := tokens.getD 4 ""
      if type = "hsl" then parseHorizontalSlider tokens ⟨x, y⟩
      else if type = "vsl" then parseVerticalSlider tokens ⟨x, y⟩
      else if type = "tgl" then parseToggle tokens ⟨x, y⟩
      else if type = "bng" then parseBang tokens ⟨x, y⟩
      else if type = "cnv" then parseCanvas tokens ⟨x, y⟩
      else if type = "pd" then parseSubpatch tokens ⟨x, y⟩
      else none
  else if startsWithChars ("#X floatatom").data line.data then
    if tokens.length < 4 then none
    else
      let x := ofToFloat (tokens.getD 2 "")
      let y := ofToFloat (tokens.getD 3 "")
      parseNumberBox tokens ⟨x, y⟩
  else if startsWithChars ("#X restore").data line.data then
    if tokens.length < 5 then none
    else
      let x := ofToFloat (tokens.getD 2 "")
      let y := ofToFloat (tokens.getD 3 "")
      parseSubpatch tokens ⟨x, y⟩
  else none

/-- PdPatchParser::parseFile on the loaded buffer contents: an empty
buffer (unopenable or empty file) yields the empty collection; otherwise
each line is parsed and non-widget lines are dropped. -/
def parseFile (contents : String) : List PdGuiObject :=
  if contents.length = 0 then []
  else (getLines contents).filterMap parseLine

/-- Tagged copy of a widget with the vertical-slider orientation, used to
compare the two slider extractors. -/
def vslOfHsl (w : PdGuiObject) : PdGuiObject := { w with type := GuiType.VERTICAL_SLIDER }

/-- Concrete widget produced by the horizontal-slider extractor on a plain
12-token hsl line at the origin. -/
def wEx4 : PdGuiObject :=
  { type := GuiType.HORIZONTAL_SLIDER, position := ⟨0, 0⟩, size := ⟨128, 15⟩,
    sendSymbol := "snd", receiveSymbol := "rcv",
    currentValue := 0, minValue := 0, maxValue := 127 }

/-- Concrete subpatch produced from a restore line placed at (50,50). -/
def wSub3 : PdGuiObject :=
  mkPdSubpatch ⟨50, 50⟩ ⟨100, 100⟩ ("sub_send") ("sub_receive") ("sub.pd") 50 50

/-- Concrete toggle declared at local position (10,10). -/
def childEx3 : PdGuiObject := mkPdToggle ⟨10, 10⟩ ⟨15, 15⟩ ("a") ("b")

/-- Concrete widget produced by the NumberEntry extractor on a floatatom
line with min and max tokens both 0. -/
def wNum5 : PdGuiObject :=
  { type := GuiType.NUMBER_BOX, position := ⟨91, 112⟩, size := ⟨40, 20⟩,
    sendSymbol := "floatatom-91-112", receiveSymbol := "floatatom-91-112",
    currentValue := 0, minValue := -1000000, maxValue := 1000000, displayPrecision := 0 }

theorem tokenAt_eq_getD (ts : List String) (i : Nat) (h : i < ts.length) :
    tokenAt ts i = some (ts.getD i "") := by
  simp [tokenAt, List.getD_eq_getElem?_getD, List.get?_eq_getElem?, List.getElem?_eq_getElem h]

theorem getD_of_tokenAt (ts : List String) (i : Nat) (a : String)
    (h : tokenAt ts i = some a) : ts.getD i "" = a := by
  simp [tokenAt, List.get?_eq_getElem?] at h
  simp [List.getD_eq_getElem?_getD, h]

theorem getD_mem (ts : List String) (i : Nat) (h : i < ts.length) :
    ts.getD i "" ∈ ts := by
  rw [List.getD_eq_getElem?_getD, List.getElem?_eq_getElem h]
  exact List.getElem_mem h

theorem setValue_minValue (w : PdGuiObject) (v : Rat) : (setValue w v).minValue = w.minValue := by
  simp only [setValue]
  split <;> rfl

theorem setValue_maxValue (w : PdGuiObject) (v : Rat) : (setValue w v).maxValue = w.maxValue := by
  simp only [setValue]
  split <;> rfl

theorem setValue_close (w : PdGuiObject) (v : Rat) :
    ofAbs ((setValue w v).currentValue - ofClamp v w.minValue w.maxValue) ≤ 1 / 1000 := by
  simp only [setValue]
  split
  · simp [ofAbs]
  · next hlt =>
    exact le_of_not_lt hlt

theorem ofClamp_le (v min max : Rat) (h : min ≤ max) :
    min ≤ ofClamp v min max ∧ ofClamp v min max ≤ max := by
  unfold ofClamp
  split_ifs <;> constructor <;> linarith

theorem ofClamp_idem (v min max : Rat) (h : min ≤ max) :
    ofClamp (ofClamp v min max) min max = ofClamp v min max := by
  unfold ofClamp
  split_ifs <;> first | rfl | linarith

theorem ofAbs_le_iff (a e : Rat) (h : ofAbs a ≤ e) : -e ≤ a ∧ a ≤ e := by
  unfold ofAbs at h
  split at h
  · constructor <;> linarith
  · next h2 => constructor <;> linarith [not_lt.mp h2]

theorem setValueRange_minValue (w : PdGuiObject) (mn mx : Rat) :
    (setValueRange w mn mx).minValue = mn := by
  unfold setValueRange
  rw [setValue_minValue]

theorem setValueRange_maxValue (w : PdGuiObject) (mn mx : Rat) :
    (setValueRange w mn mx).maxValue = mx := by
  unfold setValueRange
  rw [setValue_maxValue]

theorem mkPdSlider_minValue (ty : GuiType) (p s : ofVec2f) (a b : String) (mn mx iv : Rat) :
    (mkPdSlider ty p s a b mn mx iv).minValue = mn := by
  unfold mkPdSlider
  rw [setValue_minValue, setValueRange_minValue]

theorem mkPdSlider_maxValue (ty : GuiType) (p s : ofVec2f) (a b : String) (mn mx iv : Rat) :
    (mkPdSlider ty p s a b mn mx iv).maxValue = mx := by
  unfold mkPdSlider
  rw [setValue_maxValue, setValueRange_maxValue]

theorem mkPdSlider_close (ty : GuiType) (p s : ofVec2f) (a b : String) (mn mx iv : Rat) :
    ofAbs ((mkPdSlider ty p s a b mn mx iv).currentValue - ofClamp iv mn mx) ≤ 1 / 1000 := by
  unfold mkPdSlider
  have h := setValue_close (setValueRange (mkPdGuiObject ty p s a b) mn mx) iv
  rwa [setValueRange_minValue, setValueRange_maxValue] at h

theorem mkPdNumberBox_minValue (p s : ofVec2f) (a b : String) (mn mx iv : Rat) (pr : Int) :
    (mkPdNumberBox p s a b mn mx iv pr).minValue = mn := by
  unfold mkPdNumberBox
  rw [setValue_minValue, setValueRange_minValue]

theorem mkPdNumberBox_maxValue (p s : ofVec2f) (a b : String) (mn mx iv : Rat) (pr : Int) :
    (mkPdNumberBox p s a b mn mx iv pr).maxValue = mx := by
  unfold mkPdNumberBox
  rw [setValue_maxValue, setValueRange_maxValue]

theorem mkPdNumberBox_close (p s : ofVec2f) (a b : String) (mn mx iv : Rat) (pr : Int) :
    ofAbs ((mkPdNumberBox p s a b mn mx iv pr).currentValue - ofClamp iv mn mx) ≤ 1 / 1000 := by
  unfold mkPdNumberBox
  have h := setValue_close
    (setValueRange
      { mkPdGuiObject GuiType.NUMBER_BOX p s a b with displayPrecision := pr } mn mx) iv
  rwa [setValueRange_minValue, setValueRange_maxValue] at h

theorem close_in_range (cur t mn mx : Rat) (hc : ofAbs (cur - t) ≤ 1 / 1000)
    (h1 : mn ≤ t) (h2 : t ≤ mx) :
    mn - 1 / 1000 ≤ cur ∧ cur ≤ mx + 1 / 1000 := by
  obtain ⟨hl, hr⟩ := ofAbs_le_iff _ _ hc
  constructor <;> linarith

theorem mkPdSlider_vertical_of_horizontal (p s : ofVec2f) (a b : String) (mn mx iv : Rat) :
    mkPdSlider GuiType.VERTICAL_SLIDER p s a b mn mx iv =
      vslOfHsl (mkPdSlider GuiType.HORIZONTAL_SLIDER p s a b mn mx iv) := by
  simp only [mkPdSlider, setValueRange, setValue, mkPdGuiObject, vslOfHsl]
  split_ifs <;> rfl

theorem mkPdSlider_type (ty : GuiType) (p s : ofVec2f) (a b : String) (mn mx iv : Rat) :
    (mkPdSlider ty p s a b mn mx iv).type = ty := by
  simp only [mkPdSlider, setValueRange, setValue, mkPdGuiObject]
  split_ifs <;> rfl

/-- C9 (confirmed): on every token list and position the vertical-slider
extractor returns exactly the horizontal-slider extractor's result with
the orientation tag replaced by VERTICAL_SLIDER (same none cases, all
other fields identical), and the horizontal extractor's widgets carry the
HORIZONTAL_SLIDER tag. -/
theorem vertical_slider_matches_horizontal (tokens : List String) (pos : ofVec2f) :
    parseVerticalSlider tokens pos = (parseHorizontalSlider tokens pos).map vslOfHsl ∧
    (∀ w : PdGuiObject, parseHorizontalSlider tokens pos = some w →
      w.type = GuiType.HORIZONTAL_SLIDER ∧ (vslOfHsl w).type = GuiType.VERTICAL_SLIDER) := by
  constructor
  · unfold parseVerticalSlider parseHorizontalSlider
    by_cases hl : tokens.length < 12
    · simp [hl]
    · simp only [if_neg hl]
      cases h10 : tokenAt tokens 10 with
      | none => rfl
      | some s10 =>
        cases h11 : tokenAt tokens 11 with
        | none => rfl
        | some s11 =>
          by_cases hc : s10 = "empty" ∧ s11 = "empty"
          · simp [hc]
          · simp only [if_neg hc]
            cases h5 : tokenAt tokens 5 <;> cases h6 : tokenAt tokens 6 <;>
              cases h7 : tokenAt tokens 7 <;> cases h8 : tokenAt tokens 8 <;>
              simp [mkPdSlider_vertical_of_horizontal]
  · intro w h
    simp only [parseHorizontalSlider] at h
    split at h
    · exact absurd h (by simp)
    · split at h
      case _ sendSym receiveSym heq10 heq11 =>
        split at h
        · exact absurd h (by simp)
        · split at h
          case _ t5 t6 t7 t8 heq5 heq6 heq7 heq8 =>
            rw [Option.some_inj] at h
            subst h
            exact ⟨mkPdSlider_type _ _ _ _ _ _ _ _, rfl⟩
          case _ => exact absurd h (by simp)
      case _ => exact absurd h (by simp)

/-- C1 (amended): for slider (hsl/vsl), toggle (tgl) and trigger (bng)
lines of sufficient length, the extractor returns no widget exactly when
BOTH channel tokens are the literal "empty" (the token "-" is NOT treated
as absent by these extractors); the Label (cnv) extractor returns a widget
(for every line whose size tokens are present, i.e. at least 8 tokens)
regardless of its channel fields. -/
theorem channel_sentinel_policy (tokens : List String) (pos : ofVec2f) :
    (12 ≤ tokens.length →
      (parseHorizontalSlider tokens pos = none ↔
        tokens.getD 10 "" = "empty" ∧ tokens.getD 11 "" = "empty")) ∧
    (12 ≤ tokens.length →
      (parseVerticalSlider tokens pos = none ↔
        tokens.getD 10 "" = "empty" ∧ tokens.getD 11 "" = "empty")) ∧
    (10 ≤ tokens.length →
      (parseToggle tokens pos = none ↔
        tokens.getD 8 "" = "empty" ∧ tokens.getD 9 "" = "empty")) ∧
    (9 ≤ tokens.length →
      (parseBang tokens pos = none ↔
        tokens.getD 7 "" = "empty" ∧ tokens.getD 8 "" = "empty")) ∧
    (8 ≤ tokens.length → (parseCanvas tokens pos).isSome = true) := by
  refine ⟨?_, ?_, ?_, ?_, ?_⟩
  · intro h
    have h10 := tokenAt_eq_getD tokens 10 (by omega)
    have h11 := tokenAt_eq_getD tokens 11 (by omega)
    have h5 := tokenAt_eq_getD tokens 5 (by omega)
    have h6 := tokenAt_eq_getD tokens 6 (by omega)
    have h7 := tokenAt_eq_getD tokens 7 (by omega)
    have h8 := tokenAt_eq_getD tokens 8 (by omega)
    simp only [parseHorizontalSlider, if_neg (by omega : ¬ tokens.length < 12),
      h10, h11, h5, h6, h7, h8]
    by_cases hc : tokens.getD 10 "" = "empty" ∧ tokens.getD 11 "" = "empty"
    · simp [hc]
    · simp [hc]
  · intro h
    have h10 := tokenAt_eq_getD tokens 10 (by omega)
    have h11 := tokenAt_eq_getD tokens 11 (by omega)
    have h5 := tokenAt_eq_getD tokens 5 (by omega)
    have h6 := tokenAt_eq_getD tokens 6 (by omega)
    have h7 := tokenAt_eq_getD tokens 7 (by omega)
    have h8 := tokenAt_eq_getD tokens 8 (by omega)
    simp only [parseVerticalSlider, if_neg (by omega : ¬ tokens.length < 12),
      h10, h11, h5, h6, h7, h8]
    by_cases hc : tokens.getD 10 "" = "empty" ∧ tokens.getD 11 "" = "empty"
    · simp [hc]
    · simp [hc]
  · intro h
    have h8 := tokenAt_eq_getD tokens 8 (by omega)
    have h9 := tokenAt_eq_getD tokens 9 (by omega)
    have h5 := tokenAt_eq_getD tokens 5 (by omega)
    simp only [parseToggle, if_neg (by omega : ¬ tokens.length < 10), h8, h9, h5]
    by_cases hc : tokens.getD 8 "" = "empty" ∧ tokens.getD 9 "" = "empty"
    · simp [hc]
    · simp [hc]
  · intro h
    have h7 := tokenAt_eq_getD tokens 7 (by omega)
    have h8 := tokenAt_eq_getD tokens 8 (by omega)
    have h5 := tokenAt_eq_getD tokens 5 (by omega)
    simp only [parseBang, if_neg (by omega : ¬ tokens.length < 9), h7, h8, h5]
    by_cases hc : tokens.getD 7 "" = "empty" ∧ tokens.getD 8 "" = "empty"
    · simp [hc]
    · simp [hc]
  · intro h
    have h6 := tokenAt_eq_getD tokens 6 (by omega)
    have h7 := tokenAt_eq_getD tokens 7 (by omega)
    simp only [parseCanvas, if_neg (by omega : ¬ tokens.length < 7), h6, h7]
    rfl

/-- C2 (amended): the dispatcher matches the RAW LINE's leading
characters against "#X obj" / "#X floatatom" / "#X restore" (find == 0),
not the first two tokens; every line without such a prefix yields no
widget, and an obj-prefixed line whose type tag tokens[4] is outside
{hsl,vsl,tgl,bng,cnv,pd} yields no widget. -/
theorem dispatch_prefix_policy (line : String) :
    (¬ startsWithChars ("#X obj").data line.data →
      ¬ startsWithChars ("#X floatatom").data line.data →
      ¬ startsWithChars ("#X restore").data line.data → parseLine line = none) ∧
    (∀ tag : String, startsWithChars ("#X obj").data line.data →
      (splitString line (' ')).getD 4 "" = tag →
      ¬(tag = "hsl" ∨ tag = "vsl" ∨ tag = "tgl" ∨ tag = "bng" ∨ tag = "cnv" ∨ tag = "pd") →
      parseLine line = none) := by
  constructor
  · intro h1 h2 h3
    simp only [parseLine, h1, h2, h3]
    simp
  · intro tag hobj htag hne
    push_neg at hne
    obtain ⟨n1, n2, n3, n4, n5, n6⟩ := hne
    simp only [parseLine, hobj, htag, n1, n2, n3, n4, n5, n6]
    simp [n1, n2, n3, n4, n5, n6]

/-- C3 (confirmed): a parsed subpatch records its own position as the
flattening offset, and addChild translates every child widget's declared
position by exactly that offset. -/
theorem subpatch_child_translation (tokens : List String) (pos : ofVec2f) (w : PdGuiObject)
    (h : parseSubpatch tokens pos = some w) :
    w.offsetX = pos.x ∧ w.offsetY = pos.y ∧
    ∀ child : PdGuiObject,
      (addChild w.offsetX w.offsetY child).position.x = child.position.x + pos.x ∧
      (addChild w.offsetX w.offsetY child).position.y = child.position.y + pos.y := by
  simp only [parseSubpatch] at h
  split at h
  · exact absurd h (by simp)
  · split at h
    · exact absurd h (by simp)
    · next subpatchName heq =>
      rw [Option.some_inj] at h
      subst h
      refine ⟨rfl, rfl, ?_⟩
      intro child
      exact ⟨rfl, rfl⟩

/-- C8 (confirmed): parseFile returns the empty collection when the
buffer is empty (unopenable file), and a document all of whose lines parse
to no widget yields the empty collection — no line aborts the parse (the
embedding is total). -/
theorem parsefile_total_on_failure :
    parseFile ("") = [] ∧
    ∀ contents : String,
      (∀ l ∈ getLines contents, parseLine l = none) → parseFile contents = [] := by
  refine ⟨rfl, ?_⟩
  intro contents h
  unfold parseFile
  split
  · rfl
  · have aux : ∀ L : List String, (∀ l ∈ L, parseLine l = none) →
        L.filterMap parseLine = [] := by
      intro L
      induction L with
      | nil => intro _; rfl
      | cons a t ih =>
        intro h'
        rw [List.filterMap_cons, h' a (List.mem_cons_self a t)]
        exact ih (fun l hl => h' l (List.mem_cons_of_mem a hl))
    exact aux _ h

theorem numberInitialValue_ne_none (tokens : List String) (mn mx : Rat)
    (h : ∀ t ∈ tokens, t ≠ "") :
    numberInitialValue tokens mn mx ≠ none := by
  unfold numberInitialValue
  split
  · next hlen =>
    have hmem : tokens.getD (tokens.length - 1) "" ∈ tokens := getD_mem _ _ (by omega)
    have hne : tokens.getD (tokens.length - 1) "" ≠ "" := h _ hmem
    have hdata : (tokens.getD (tokens.length - 1) "").data ≠ [] := by
      intro hd
      apply hne
      cases hs : tokens.getD (tokens.length - 1) ""
      rw [hs] at hd
      simp at hd
      simp [hd]
    rw [List.getD_eq_getElem?_getD] at hdata
    obtain ⟨c, hc⟩ := Option.isSome_iff_exists.mp (List.getLast?_isSome.mpr hdata)
    simp [strBack, hc]
  · simp

/-- C10 (confirmed): every token produced by the tokenizer is non-empty,
and on any token list of non-empty tokens the NumberEntry extractor
always succeeds past its guard — in particular the back() read of the
last token (modelled by the Option-returning strBack) never touches an
empty string. -/
theorem tokens_nonempty_numberbox_safe :
    (∀ line : String, ∀ t ∈ splitString line (' '), t ≠ "") ∧
    (∀ tokens : List String, ∀ pos : ofVec2f, (∀ t ∈ tokens, t ≠ "") →
      7 ≤ tokens.length → (parseNumberBox tokens pos).isSome = true) := by
  constructor
  · intro line t ht
    simp only [splitString, List.mem_filter] at ht
    intro hcontra
    subst hcontra
    exact absurd ht.2 (by decide)
  · intro tokens pos h hlen
    have h4 := tokenAt_eq_getD tokens 4 (by omega)
    have h5 := tokenAt_eq_getD tokens 5 (by omega)
    have h6 := tokenAt_eq_getD tokens 6 (by omega)
    simp only [parseNumberBox, if_neg (by omega : ¬ tokens.length < 7), h4, h5, h6]
    split
    · next heq => exact absurd heq (numberInitialValue_ne_none tokens _ _ h)
    · rfl

theorem ofClamp_self (mn mx : Rat) (h : mn ≤ mx) : ofClamp mn mn mx = mn := by
  unfold ofClamp
  rw [if_neg (lt_irrefl mn), if_neg (not_lt.mpr h)]

/-- C4 (amended): for an accepted hsl line the widget's range fields are
tokens[7] and tokens[8] as parsed, and (when min ≤ max) the stored value
after construction is within the 0.001 change-detection tolerance of the
claimed value — clamp(last token) when more than 20 tokens are present,
min otherwise — hence lies in [min - 0.001, max + 0.001]; the same
tolerance bound holds for every accepted floatatom (NumberEntry) line. -/
theorem slider_value_within_tolerance (tokens : List String) (pos : ofVec2f) (w : PdGuiObject) :
    (parseHorizontalSlider tokens pos = some w →
      w.minValue = ofToFloat (tokens.getD 7 "") ∧
      w.maxValue = ofToFloat (tokens.getD 8 "") ∧
      (w.minValue ≤ w.maxValue →
        (20 < tokens.length →
          ofAbs (w.currentValue -
            ofClamp (ofToFloat (tokens.getD (tokens.length - 1) "")) w.minValue w.maxValue)
            ≤ 1 / 1000) ∧
        (tokens.length ≤ 20 → ofAbs (w.currentValue - w.minValue) ≤ 1 / 1000) ∧
        (w.minValue - 1 / 1000 ≤ w.currentValue ∧ w.currentValue ≤ w.maxValue + 1 / 1000))) ∧
    (parseNumberBox tokens pos = some w →
      w.minValue ≤ w.maxValue →
      w.minValue - 1 / 1000 ≤ w.currentValue ∧ w.currentValue ≤ w.maxValue + 1 / 1000) := by
  constructor
  · intro h
    simp only [parseHorizontalSlider] at h
    split at h
    · exact absurd h (by simp)
    · split at h
      case _ sendSym receiveSym heq10 heq11 =>
        split at h
        · exact absurd h (by simp)
        · split at h
          case _ t5 t6 t7 t8 heq5 heq6 heq7 heq8 =>
            rw [Option.some_inj] at h
            subst h
            rw [getD_of_tokenAt _ _ _ heq7, getD_of_tokenAt _ _ _ heq8]
            rw [mkPdSlider_minValue, mkPdSlider_maxValue]
            refine ⟨rfl, rfl, ?_⟩
            intro hmm
            refine ⟨?_, ?_, ?_⟩
            · intro hlen
              rw [if_pos hlen]
              have hclose := mkPdSlider_close GuiType.HORIZONTAL_SLIDER pos
                ⟨ofToFloat t5, ofToFloat t6⟩ sendSym receiveSym (ofToFloat t7) (ofToFloat t8)
                (ofClamp (ofToFloat (tokens.getD (tokens.length - 1) ""))
                  (ofToFloat t7) (ofToFloat t8))
              rwa [ofClamp_idem _ _ _ hmm] at hclose
            · intro hlen
              rw [if_neg (by omega : ¬ 20 < tokens.length)]
              have hclose := mkPdSlider_close GuiType.HORIZONTAL_SLIDER pos
                ⟨ofToFloat t5, ofToFloat t6⟩ sendSym receiveSym (ofToFloat t7) (ofToFloat t8)
                (ofToFloat t7)
              rwa [ofClamp_self _ _ hmm] at hclose
            · have hclose := mkPdSlider_close GuiType.HORIZONTAL_SLIDER pos
                ⟨ofToFloat t5, ofToFloat t6⟩ sendSym receiveSym (ofToFloat t7) (ofToFloat t8)
                (if 20 < tokens.length then
                  ofClamp (ofToFloat (tokens.getD (tokens.length - 1) ""))
                    (ofToFloat t7) (ofToFloat t8)
                 else ofToFloat t7)
              refine close_in_range _ _ _ _ hclose ?_ ?_
              · exact (ofClamp_le _ _ _ hmm).1
              · exact (ofClamp_le _ _ _ hmm).2
          case _ => exact absurd h (by simp)
      case _ => exact absurd h (by simp)
  · intro h hmm
    simp only [parseNumberBox] at h
    split at h
    · exact absurd h (by simp)
    · split at h
      case _ t4 t5 t6 heq4 heq5 heq6 =>
        split at h
        · exact absurd h (by simp)
        · case _ iv heqiv =>
          rw [Option.some_inj] at h
          subst h
          rw [mkPdNumberBox_minValue, mkPdNumberBox_maxValue] at hmm ⊢
          exact close_in_range _ _ _ _ (mkPdNumberBox_close pos _ _ _ _ _ iv _)
            (ofClamp_le _ _ _ hmm).1 (ofClamp_le _ _ _ hmm).2
      case _ => exact absurd h (by simp)

/-- C5 (confirmed): for every accepted floatatom line, if tokens[5] and
tokens[6] both parse to exactly 0 the widget's range is exactly
[-1000000, 1000000], and otherwise it is the two tokens as parsed. -/
theorem numberbox_default_range (tokens : List String) (pos : ofVec2f) (w : PdGuiObject)
    (h : parseNumberBox tokens pos = some w) :
    ((ofToFloat (tokens.getD 5 "") = 0 ∧ ofToFloat (tokens.getD 6 "") = 0) →
      w.minValue = -1000000 ∧ w.maxValue = 1000000) ∧
    (¬(ofToFloat (tokens.getD 5 "") = 0 ∧ ofToFloat (tokens.getD 6 "") = 0) →
      w.minValue = ofToFloat (tokens.getD 5 "") ∧ w.maxValue = ofToFloat (tokens.getD 6 "")) := by
  simp only [parseNumberBox] at h
  split at h
  · exact absurd h (by simp)
  · split at h
    case _ t4 t5 t6 heq4 heq5 heq6 =>
      split at h
      · exact absurd h (by simp)
      · case _ iv heqiv =>
        rw [Option.some_inj] at h
        subst h
        rw [getD_of_tokenAt _ _ _ heq5, getD_of_tokenAt _ _ _ heq6]
        rw [mkPdNumberBox_minValue, mkPdNumberBox_maxValue]
        constructor
        · intro hz
          rw [if_pos hz, if_pos hz]
          exact ⟨rfl, rfl⟩
        · intro hz
          rw [if_neg hz, if_neg hz]
          exact ⟨rfl, rfl⟩
    case _ => exact absurd h (by simp)

/-- C6 (amended): the hex-color parser maps "#ff0400" to (255,4,0) and
never fails; every string that is not '#' followed by exactly 6 characters
yields the gray fallback (128,128,128), as does any 7-character '#' string
one of whose three 2-character pairs has no parseable base-16 prefix; but
pairs are parsed with stoi's longest-prefix semantics, so a pair need only
START with a hex digit ("#12345z" yields (18,52,5), not gray). -/
theorem hex_color_policy :
    parseHexColor ("#ff0400") = ⟨255, 4, 0⟩ ∧
    (∀ s : String, ¬(s.data.length = 7 ∧ s.data.headD (' ') = '#') →
      parseHexColor s = ⟨128, 128, 128⟩) ∧
    (∀ s : String, s.data.length = 7 → s.data.headD (' ') = '#' →
      (stoi16 ((s.data.drop 1).take 2) = none ∨
       stoi16 (((s.data.drop 1).drop 2).take 2) = none ∨
       stoi16 (((s.data.drop 1).drop 4).take 2) = none) →
      parseHexColor s = ⟨128, 128, 128⟩) ∧
    parseHexColor ("#12345z") = ⟨18, 52, 5⟩ := by
  refine ⟨by decide, ?_, ?_, by decide⟩
  · intro s hns
    unfold parseHexColor
    by_cases h7 : s.data.length < 7
    · rw [if_pos (Or.inl h7)]
    · by_cases hh : s.data.headD (' ') = '#'
      · have hne : s.data.length ≠ 7 := fun hc => hns ⟨hc, hh⟩
        rw [if_neg (not_or.mpr ⟨h7, not_not.mpr hh⟩)]
        rw [if_pos (by rw [List.length_drop]; omega)]
      · rw [if_pos (Or.inr hh)]
  · intro s h7 hh hd
    unfold parseHexColor
    rw [if_neg (not_or.mpr ⟨by omega, not_not.mpr hh⟩)]
    rw [if_neg (by rw [List.length_drop]; omega)]
    rcases hd with h | h | h
    · rw [h]
    · cases hA : stoi16 ((s.data.drop 1).take 2) with
      | none => rfl
      | some a => rw [h]
    · cases hA : stoi16 ((s.data.drop 1).take 2) with
      | none => rfl
      | some a =>
        cases hB : stoi16 (((s.data.drop 1).drop 2).take 2) with
        | none => rfl
        | some b => rw [h]

/-- C7 (code_bug): the cnv extractor's guard admits lines with exactly 7
tokens, but the height read is tokens[7], which is out of bounds on such a
line — the Option-returning token lookup hits its out-of-range branch,
modelling the unguarded C++ vector access. -/
theorem canvas_height_token_out_of_bounds :
    (["#X", "obj", "167", "111", "cnv", "19", "126"] : List String).length = 7 ∧
    ¬((["#X", "obj", "167", "111", "cnv", "19", "126"] : List String).length < 7) ∧
    tokenAt ["#X", "obj", "167", "111", "cnv", "19", "126"] 7 = none ∧
    parseCanvas ["#X", "obj", "167", "111", "cnv", "19", "126"] ⟨167, 111⟩ = none := by
  refine ⟨rfl, by decide, rfl, rfl⟩

/-- C1 counterexample: a 12-token hsl line whose two channel tokens are
both "-" still produces a widget, so "-" is not treated as an absent
channel by the slider extractor, contradicting the claim. -/
theorem dash_channels_still_produce_widget :
    (parseHorizontalSlider ["#X", "obj", "0", "0", "hsl", "128", "15", "0", "127", "0", "-", "-"]
        ⟨0, 0⟩).map (fun w => (w.sendSymbol, w.receiveSymbol)) = some ("-", "-") := by
  decide

/-- C2 counterexample: the line "#X objQ 10 20 tgl ..." has first two
tokens "#X" and "objQ" (not "#X obj"), yet the prefix test accepts it and
the toggle extractor produces a widget, contradicting the claim's
first-two-tokens reading. -/
theorem dispatch_raw_prefix_counterexample :
    (parseLine ("#X objQ 10 20 tgl 15 0 empty snd rcv")).map (fun w => w.type) =
      some GuiType.TOGGLE ∧
    (splitString ("#X objQ 10 20 tgl 15 0 empty snd rcv") (' ')).getD 1 "" = "objQ" ∧
    ("objQ" ≠ "obj" ∧ "objQ" ≠ "floatatom" ∧ "objQ" ≠ "restore") := by
  refine ⟨by decide, by decide, by decide, by decide, by decide⟩

/-- C4 counterexample: a 12-token hsl line with min token "0.0005" and
max token "127" yields a widget whose stored value is 0 rather than the
claimed initial value min = 1/2000, so min ≤ initialValue fails after
construction (the constructor's setValue skips updates within 0.001). -/
theorem slider_value_escapes_range :
    (parseHorizontalSlider
        ["#X", "obj", "0", "0", "hsl", "128", "15", "0.0005", "127", "0", "snd", "rcv"]
        ⟨0, 0⟩).map (fun w => (w.currentValue, w.minValue)) = some (0, 1 / 2000) ∧
    ¬((1 : Rat) / 2000 ≤ 0) := by
  refine ⟨by decide, by decide⟩

/-- C6 counterexample: "#12345z" is not '#' followed by 6 hex digits,
yet the parser returns (18,52,5) instead of the gray fallback, because
stoi parses the prefix "5" of the pair "5z". -/
theorem hex_color_prefix_counterexample :
    parseHexColor ("#12345z") = ⟨18, 52, 5⟩ ∧
    (("#12345z").data.drop 1).all isHexDigitChar = false ∧
    (⟨18, 52, 5⟩ : ofColor) ≠ ⟨128, 128, 128⟩ := by
  refine ⟨by decide, by decide, by decide⟩

/-- C1 witness: the policy applied to a concrete toggle line with both
channels "empty" (no widget) and a concrete 8-token cnv line (widget). -/
theorem channel_sentinel_policy_witness :
    parseToggle ["#X", "obj", "0", "0", "tgl", "15", "0", "x", "empty", "empty"] ⟨0, 0⟩ = none ∧
    (parseCanvas ["#X", "obj", "0", "0", "cnv", "19", "126", "76"] ⟨0, 0⟩).isSome = true := by
  constructor
  · exact ((channel_sentinel_policy ["#X", "obj", "0", "0", "tgl", "15", "0", "x", "empty", "empty"]
      ⟨0, 0⟩).2.2.1 (by decide)).mpr (by decide)
  · exact (channel_sentinel_policy ["#X", "obj", "0", "0", "cnv", "19", "126", "76"] ⟨0, 0⟩).2.2.2.2 (by decide)

/-- C2 witness: a comment-like line with none of the three prefixes and
an obj line with an unknown type tag both yield no widget. -/
theorem dispatch_prefix_policy_witness :
    parseLine ("#N canvas 0 50 450 300 12") = none ∧
    parseLine ("#X obj 10 10 osc~ 440") = none := by
  constructor
  · exact (dispatch_prefix_policy ("#N canvas 0 50 450 300 12")).1 (by decide) (by decide) (by decide)
  · exact (dispatch_prefix_policy ("#X obj 10 10 osc~ 440")).2 ("osc~") (by decide) (by decide) (by decide)

/-- C3 witness: a child declared at local (10,10) inside a subpatch
placed at (50,50) ends up at absolute (60,60). -/
theorem subpatch_child_translation_witness :
    (addChild wSub3.offsetX wSub3.offsetY childEx3).position.x = 60 ∧
    (addChild wSub3.offsetX wSub3.offsetY childEx3).position.y = 60 := by
  have h := (subpatch_child_translation ["#X", "restore", "50", "50", "pd", "sub"] ⟨50, 50⟩ wSub3 (by decide)).2.2
    childEx3
  exact ⟨h.1.trans (by decide), h.2.trans (by decide)⟩

/-- C4 witness: the tolerance bounds applied to the widget built from a
concrete 12-token hsl line with range [0,127]. -/
theorem slider_value_within_tolerance_witness :
    wEx4.minValue - 1 / 1000 ≤ wEx4.currentValue ∧
    wEx4.currentValue ≤ wEx4.maxValue + 1 / 1000 := by
  have h := (slider_value_within_tolerance ["#X", "obj", "0", "0", "hsl", "128", "15", "0", "127", "0", "snd", "rcv"]
    ⟨0, 0⟩ wEx4).1 (by decide)
  exact (h.2.2 (by decide)).2.2

/-- C5 witness: the floatatom line "#X floatatom 91 112 5 0 0 0 - - -
0;" yields the default range [-1000000, 1000000]. -/
theorem numberbox_default_range_witness : wNum5.minValue = -1000000 ∧ wNum5.maxValue = 1000000 := by
  have h := numberbox_default_range ["#X", "floatatom", "91", "112", "5", "0", "0", "0", "-", "-", "-", "0;"]
    ⟨91, 112⟩ wNum5 (by decide)
  exact h.1 (by decide)

/-- C6 witness: the gray fallback on a short string and on a 7-character
string whose first pair has no hex prefix. -/
theorem hex_color_policy_witness :
    parseHexColor ("zz") = ⟨128, 128, 128⟩ ∧
    parseHexColor ("#gg0000") = ⟨128, 128, 128⟩ :=
  ⟨hex_color_policy.2.1 ("zz") (by decide),
   hex_color_policy.2.2.1 ("#gg0000") (by decide) (by decide) (Or.inl (by decide))⟩

/-- C8 witness: a fully malformed two-line document parses to the empty
collection. -/
theorem parsefile_total_on_failure_witness : parseFile ("hello;\nworld") = [] :=
  parsefile_total_on_failure.2 ("hello;\nworld") (by decide)

/-- C9 witness: the correspondence evaluated on a concrete 12-token
line, and the tag substitution on a concrete widget. -/
theorem vertical_slider_matches_horizontal_witness :
    parseVerticalSlider ["#X", "obj", "0", "0", "vsl", "15", "128", "0", "127", "0", "s", "r"]
        ⟨0, 0⟩ =
      (parseHorizontalSlider ["#X", "obj", "0", "0", "vsl", "15", "128", "0", "127", "0", "s", "r"]
        ⟨0, 0⟩).map vslOfHsl ∧
    (wEx4.type = GuiType.HORIZONTAL_SLIDER ∧
      (vslOfHsl wEx4).type = GuiType.VERTICAL_SLIDER) := by
  constructor
  · exact (vertical_slider_matches_horizontal ["#X", "obj", "0", "0", "vsl", "15", "128", "0", "127", "0", "s", "r"]
      ⟨0, 0⟩).1
  · exact (vertical_slider_matches_horizontal
      ["#X", "obj", "0", "0", "hsl", "128", "15", "0", "127", "0", "snd", "rcv"] ⟨0, 0⟩).2
      wEx4 (by decide)

/-- C10 witness: non-emptiness of a concrete token and success of the
extractor on a concrete floatatom token list. -/
theorem tokens_nonempty_numberbox_safe_witness :
    ("a" ≠ "") ∧
    (parseNumberBox ["#X", "floatatom", "91", "112", "5", "0", "0", "0", "-", "-", "-", "0;"]
      ⟨91, 112⟩).isSome = true :=
  ⟨tokens_nonempty_numberbox_safe.1 ("a b") ("a") (by decide),
   tokens_nonempty_numberbox_safe.2 ["#X", "floatatom", "91", "112", "5", "0", "0", "0", "-", "-", "-", "0;"]
     ⟨91, 112⟩ (by decide) (by decide)⟩
